import Mathlib

/-!
Verification development for the x402 Solana payment facilitator.

This file shallowly embeds the verification and settlement pipeline of the
facilitator (src/solana/verifier.rs, src/handlers/verify.rs,
src/handlers/settle.rs, src/handlers/supported.rs, src/parallel.rs,
src/dedup.rs, src/cache.rs, src/error.rs, src/config.rs) and proves
properties of the embedding.

Modelling conventions:
- Public keys and accounts are opaque identities; equality is the only
  operation the verifier performs on them, so `Pubkey`, `Account` and
  `Keypair` are `Nat`.  The three fixed program id constants of the source
  (compute budget, SPL token, SPL token-2022) become distinct naturals.
- Calls into external crates (base64+bincode transaction decoding, base58
  pubkey parsing, SHA-256, the chain RPC client, the SPL associated token
  address derivation, ed25519 signing, chain submission) are fields of an
  environment record `Env`; the repository's own logic is translated in
  full against that environment.
- Rust slice indexing panics when out of range; an indexing step is
  embedded as `List.get?`, and a whole verifier function returns
  `Option (Except VerificationError a)` where `none` models a Rust panic
  propagating out of the function.
- `u64` values are `Nat`; the only saturating operation in the source,
  `u64::saturating_sub`, coincides with `Nat` subtraction.
- The dedup store and the account cache are bounded TTL maps in the
  source (moka); the embedded state holds the currently live (unexpired,
  unevicted) entries, which is the only view the verification logic
  observes within one dedup window.
-/

namespace Facilitator

abbrev Pubkey := Nat

abbrev Account := Nat

abbrev Keypair := Nat

/-- Model of `compute_budget_program_id` (verifier.rs): the fixed pubkey
`ComputeBudget111111111111111111111111111111`, an opaque constant distinct
from the token program ids. -/
def compute_budget_program_id : Pubkey := 1

/-- Model of `spl_token_program_id` (verifier.rs): the fixed `spl_token::ID`. -/
def spl_token_program_id : Pubkey := 2

/-- Model of `spl_token_2022_program_id` (verifier.rs): the fixed
`spl_token_2022::ID`. -/
def spl_token_2022_program_id : Pubkey := 3

/-- Model of the fixed `spl_associated_token_account::ID` used by
`verify_create_ata_instruction`. -/
def ata_program_id : Pubkey := 4

/-- A compiled instruction of a decoded transaction
(solana_sdk::instruction::CompiledInstruction): a program id index into
`account_keys`, a list of account indices into `account_keys`, and raw data
bytes.  The decoder does not enforce that any index is in range. -/
structure CompiledInstruction where
  program_id_index : Nat
  accounts : List Nat
  data : List Nat
deriving DecidableEq

/-- The message of a decoded transaction (solana_sdk::message::Message),
restricted to the fields the facilitator's core reads. -/
structure Message where
  account_keys : List Pubkey
  instructions : List CompiledInstruction
deriving DecidableEq

/-- A decoded transaction (solana_sdk::transaction::Transaction), restricted
to the fields the facilitator's core reads.  Signatures are opaque. -/
structure Transaction where
  signatures : List Nat
  message : Message
deriving DecidableEq

/-- The error enum of src/error.rs (`VerificationError`).  The
`UnexpectedError` variant wraps an `anyhow::Error`; the embedding keeps its
rendered message. -/
inductive VerificationError where
  | UnsupportedScheme
  | InvalidNetwork
  | InvalidInstructionCount
  | InvalidComputeLimitInstruction
  | InvalidComputePriceInstruction
  | ComputePriceTooHigh
  | FeePayerInInstructionAccounts
  | FeePayerTransferringFunds
  | AmountMismatch
  | InvalidCreateATAInstruction
  | CreateATAIncorrectPayee
  | CreateATAIncorrectAsset
  | TransferToIncorrectATA
  | SenderATANotFound
  | ReceiverATANotFound
  | NotATransferInstruction
  | UnexpectedError (msg : String)
deriving DecidableEq

/-- Translation of `VerificationError::as_str` (src/error.rs lines 87-108):
the stable wire tag of each error variant. -/
def VerificationError.as_str : VerificationError → String
  | .UnsupportedScheme => "unsupported_scheme"
  | .InvalidNetwork => "invalid_network"
  | .InvalidInstructionCount => "invalid_exact_svm_payload_transaction_instructions_length"
  | .InvalidComputeLimitInstruction => "invalid_exact_svm_payload_transaction_instructions_compute_limit_instruction"
  | .InvalidComputePriceInstruction => "invalid_exact_svm_payload_transaction_instructions_compute_price_instruction"
  | .ComputePriceTooHigh => "invalid_exact_svm_payload_transaction_instructions_compute_price_instruction_too_high"
  | .FeePayerInInstructionAccounts => "invalid_exact_svm_payload_transaction_fee_payer_included_in_instruction_accounts"
  | .FeePayerTransferringFunds => "invalid_exact_svm_payload_transaction_fee_payer_transferring_funds"
  | .AmountMismatch => "invalid_exact_svm_payload_transaction_amount_mismatch"
  | .InvalidCreateATAInstruction => "invalid_exact_svm_payload_transaction_create_ata_instruction"
  | .CreateATAIncorrectPayee => "invalid_exact_svm_payload_transaction_create_ata_instruction_incorrect_payee"
  | .CreateATAIncorrectAsset => "invalid_exact_svm_payload_transaction_create_ata_instruction_incorrect_asset"
  | .TransferToIncorrectATA => "invalid_exact_svm_payload_transaction_transfer_to_incorrect_ata"
  | .SenderATANotFound => "invalid_exact_svm_payload_transaction_sender_ata_not_found"
  | .ReceiverATANotFound => "invalid_exact_svm_payload_transaction_receiver_ata_not_found"
  | .NotATransferInstruction => "invalid_exact_svm_payload_transaction_not_a_transfer_instruction"
  | .UnexpectedError _ => "unexpected_verify_error"

/-- Extra fields of the payment requirements (src/types/requests.rs):
carries the base58 fee payer key. -/
structure ExtraFields where
  fee_payer : String
deriving DecidableEq

/-- PaymentRequirements (src/types/requests.rs). -/
structure PaymentRequirements where
  scheme : String
  network : String
  max_amount_required : String
  asset : String
  pay_to : String
  resource : String
  description : String
  mime_type : String
  max_timeout_seconds : Nat
  extra : ExtraFields
deriving DecidableEq

/-- SvmPayload (src/types/requests.rs): the base64 transaction blob. -/
structure SvmPayload where
  transaction : String
deriving DecidableEq

/-- PaymentPayload (src/types/requests.rs). -/
structure PaymentPayload where
  x402_version : Nat
  scheme : String
  network : String
  payload : SvmPayload
  timestamp : Option Nat
deriving DecidableEq

/-- VerifyRequest (src/types/requests.rs). -/
structure VerifyRequest where
  payment_payload : PaymentPayload
  payment_requirements : PaymentRequirements
deriving DecidableEq

/-- SettleRequest (src/types/requests.rs). -/
structure SettleRequest where
  payment_payload : PaymentPayload
  payment_requirements : PaymentRequirements
deriving DecidableEq

/-- VerifyResponse (src/types/responses.rs). -/
structure VerifyResponse where
  is_valid : Bool
  invalid_reason : Option String
  payer : Option String
deriving DecidableEq

/-- SettleResponse (src/types/responses.rs). -/
structure SettleResponse where
  success : Bool
  network : String
  transaction : String
  payer : Option String
  error_reason : Option String
deriving DecidableEq

/-- One scheme entry of the /supported response (src/types/responses.rs). -/
structure SchemeSupport where
  scheme : String
  networks : List String
deriving DecidableEq

/-- The /supported response (src/types/responses.rs). -/
structure SupportedResponse where
  schemes : List SchemeSupport
deriving DecidableEq

/-- Environment of external effects and external library functions the core
calls: transaction decoding (base64 + bincode), base58 pubkey parsing and
display, SHA-256 fingerprinting (sha2 crate), the chain RPC `get_account`
(an RPC error and a missing account are conflated by the source, hence
`Option`), the SPL associated-token-address derivation, the wall clock, and
the settlement externals (keypair load, ed25519 fee-payer signing, chain
submission with retries).  `Except String` carries the rendered error
message where the source reads it. -/
structure Env where
  decodeTx : String → Except String Transaction
  parsePubkey : String → Option Pubkey
  showPubkey : Pubkey → String
  sha256Hex : String → String
  getAccount : Pubkey → Option Account
  ataDerive : Pubkey → Pubkey → Pubkey
  now : Nat
  loadKeypair : String → Except String Keypair
  signTx : Transaction → Keypair → Except String Transaction
  submitTx : Transaction → Except String String

/-- The configuration fields the verification and settlement pipeline reads
(src/config.rs `Config`); the shared caches are passed as explicit state. -/
structure Config where
  fee_payer_private_key : String
  network : String
  payment_expiry_seconds : Nat
deriving DecidableEq

/-- The list of network values accepted by `Config::validate`
(src/config.rs line 170). -/
def valid_networks : List String := ["solana", "solana-devnet", "solana-testnet"]

/-- Translation of the network clause of `Config::validate`
(src/config.rs lines 169-173). -/
def Config.validate_network (c : Config) : Bool := valid_networks.contains c.network

/-- Translation of the GET /supported handler (src/handlers/supported.rs
lines 13-23): the literal response value. -/
def supported : SupportedResponse :=
  ⟨[⟨"exact", ["solana-devnet", "solana"]⟩]⟩

/-- Model of Rust `str::parse::<u64>`: optional leading plus sign, at least
one character, decimal digits only, and the value must fit in 64 bits. -/
def parseU64 (s : String) : Option Nat :=
  let cs :=
    match s.data with
    | c :: rest => if c = Char.ofNat 43 then rest else s.data
    | [] => s.data
  if cs.isEmpty then none
  else if cs.all (fun c => 48 ≤ c.toNat ∧ c.toNat ≤ 57) then
    let v := cs.foldl (fun a c => a * 10 + (c.toNat - 48)) 0
    if v < 2 ^ 64 then some v else none
  else none

/-- Model of `u64::from_le_bytes` on a list of bytes in little-endian
order. -/
def fromLeBytes (bs : List Nat) : Nat := bs.foldr (fun b acc => b + 256 * acc) 0

/-! The dedup store (src/dedup.rs).  The live state is the set of SHA-256
hex fingerprints currently inside the dedup window. -/

abbrev DedupState := List String

/-- Translation of `TransactionDedup::hash_transaction` (src/dedup.rs):
SHA-256 of the raw blob text, hex encoded; SHA-256 itself is the external
sha2 crate, provided by the environment. -/
def hash_transaction (env : Env) (transaction_data : String) : String :=
  env.sha256Hex transaction_data

/-- Translation of `TransactionDedup::check_and_mark` (src/dedup.rs lines
61-73): returns `true` if the fingerprint was already live (a duplicate),
otherwise marks it and returns `false`. -/
def check_and_mark (env : Env) (st : DedupState) (transaction_data : String) :
    Bool × DedupState :=
  let hash := hash_transaction env transaction_data
  if hash ∈ st then (true, st) else (false, hash :: st)

/-! The account cache (src/cache.rs).  The live state is the list of
unexpired, unevicted entries. -/

abbrev AccountCacheState := List (Pubkey × Account)

/-- Translation of `AccountCache::get` (src/cache.rs). -/
def AccountCache.get (cache : AccountCacheState) (pubkey : Pubkey) : Option Account :=
  (cache.find? (fun p => p.1 = pubkey)).map Prod.snd

/-- Translation of `AccountCache::insert` (src/cache.rs). -/
def AccountCache.insert (cache : AccountCacheState) (pubkey : Pubkey) (account : Account) :
    AccountCacheState :=
  (pubkey, account) :: cache

/-- Translation of `check_account_exists` (src/solana/verifier.rs lines
124-146): consult the cache first; on a miss fall back to the RPC lookup,
inserting the fetched account on success; an RPC failure reports `false`
("not found"). -/
def check_account_exists (env : Env) (cache : AccountCacheState) (pubkey : Pubkey) :
    Bool × AccountCacheState :=
  match AccountCache.get cache pubkey with
  | some _ => (true, cache)
  | none =>
    match env.getAccount pubkey with
    | some account => (true, AccountCache.insert cache pubkey account)
    | none => (false, cache)

/-- Rust indexing `message.account_keys[i]`: `none` models the
out-of-range panic. -/
def keyAt (message : Message) (i : Nat) : Option Pubkey :=
  message.account_keys.get? i

/-- Translation of `verify_instruction_count` (src/solana/verifier.rs lines
17-25): the instruction count must be 3 or 4; `true` means a CreateATA
instruction is present (count 4). -/
def verify_instruction_count (tx : Transaction) : Except VerificationError Bool :=
  let count := tx.message.instructions.length
  if count ≠ 3 ∧ count ≠ 4 then .error .InvalidInstructionCount
  else .ok (count = 4)

/-- Translation of `verify_compute_limit_instruction` (src/solana/verifier.rs
lines 36-54).  `none` models the Rust panic when `program_id_index` is out
of range. -/
def verify_compute_limit_instruction (instruction : CompiledInstruction)
    (message : Message) : Option (Except VerificationError Unit) :=
  match keyAt message instruction.program_id_index with
  | none => none
  | some program_id =>
    if program_id ≠ compute_budget_program_id then
      some (.error .InvalidComputeLimitInstruction)
    else
      match instruction.data with
      | [] => some (.error .InvalidComputeLimitInstruction)
      | b :: _ =>
        if b ≠ 2 then some (.error .InvalidComputeLimitInstruction)
        else some (.ok ())

/-- Translation of `verify_compute_price_instruction` (src/solana/verifier.rs
lines 57-91): compute-budget program, discriminator byte 3, an 8-byte
little-endian micro-lamport price, and the hard 5 000 000 ceiling. -/
def verify_compute_price_instruction (instruction : CompiledInstruction)
    (message : Message) : Option (Except VerificationError Unit) :=
  match keyAt message instruction.program_id_index with
  | none => none
  | some program_id =>
    if program_id ≠ compute_budget_program_id then
      some (.error .InvalidComputePriceInstruction)
    else
      match instruction.data with
      | [] => some (.error .InvalidComputePriceInstruction)
      | b :: _ =>
        if b ≠ 3 then some (.error .InvalidComputePriceInstruction)
        else if instruction.data.length < 9 then
          some (.error .InvalidComputePriceInstruction)
        else
          let micro_lamports := fromLeBytes ((instruction.data.drop 1).take 8)
          if micro_lamports > 5000000 then some (.error .ComputePriceTooHigh)
          else some (.ok ())

/-- Inner loop of `verify_fee_payer_safety`: scan one instruction's account
index list, looking each index up in `account_keys` (a Rust panic on an
out-of-range index is `none`); `some true` means the fee payer was found. -/
def fee_payer_hit (message : Message) (fee_payer : Pubkey) :
    List Nat → Option Bool
  | [] => some false
  | i :: rest =>
    match keyAt message i with
    | none => none
    | some account =>
      if account = fee_payer then some true
      else fee_payer_hit message fee_payer rest

/-- Outer loop of `verify_fee_payer_safety` over the instruction list. -/
def fee_payer_scan (message : Message) (fee_payer : Pubkey) :
    List CompiledInstruction → Option (Except VerificationError Unit)
  | [] => some (.ok ())
  | instruction :: rest =>
    match fee_payer_hit message fee_payer instruction.accounts with
    | none => none
    | some true => some (.error .FeePayerInInstructionAccounts)
    | some false => fee_payer_scan message fee_payer rest

/-- Translation of `verify_fee_payer_safety` (src/solana/verifier.rs lines
96-111): the fee payer must not appear at any account index of any
instruction. -/
def verify_fee_payer_safety (tx : Transaction) (fee_payer : Pubkey) :
    Option (Except VerificationError Unit) :=
  fee_payer_scan tx.message fee_payer tx.message.instructions

/-- Translation of `verify_transfer_instruction` (src/solana/verifier.rs
lines 149-236).  Note the source resolves the account-existence checks with
direct `rpc_client.get_account` calls (lines 226 and 231); no cache
argument exists in the source signature, so none exists here. -/
def verify_transfer_instruction (env : Env) (instruction : CompiledInstruction)
    (message : Message) (requirements : PaymentRequirements) (fee_payer : Pubkey)
    (has_create_ata : Bool) : Option (Except VerificationError Unit) :=
  match keyAt message instruction.program_id_index with
  | none => none
  | some program_id =>
    if program_id ≠ spl_token_program_id ∧ program_id ≠ spl_token_2022_program_id then
      some (.error .NotATransferInstruction)
    else if instruction.data.length < 10 then
      some (.error .NotATransferInstruction)
    else if instruction.data.head? ≠ some 12 then
      some (.error .NotATransferInstruction)
    else
      let amount := fromLeBytes ((instruction.data.drop 1).take 8)
      match parseU64 requirements.max_amount_required with
      | none => some (.error .AmountMismatch)
      | some required_amount =>
        if amount ≠ required_amount then some (.error .AmountMismatch)
        else if instruction.accounts.length < 4 then
          some (.error .NotATransferInstruction)
        else
          match instruction.accounts.get? 0, instruction.accounts.get? 2,
              instruction.accounts.get? 3 with
          | some source_idx, some destination_idx, some authority_idx =>
            (match keyAt message source_idx, keyAt message destination_idx,
                keyAt message authority_idx with
            | some source, some destination, some authority =>
              if authority = fee_payer then
                some (.error .FeePayerTransferringFunds)
              else
                match env.parsePubkey requirements.pay_to with
                | none => some (.error .TransferToIncorrectATA)
                | some pay_to =>
                  match env.parsePubkey requirements.asset with
                  | none => some (.error .TransferToIncorrectATA)
                  | some asset =>
                    let expected_destination := env.ataDerive pay_to asset
                    if destination ≠ expected_destination then
                      some (.error .TransferToIncorrectATA)
                    else
                      match env.getAccount source with
                      | none => some (.error .SenderATANotFound)
                      | some _ =>
                        if has_create_ata = false ∧
                            env.getAccount expected_destination = none then
                          some (.error .ReceiverATANotFound)
                        else some (.ok ())
            | _, _, _ => none)
          | _, _, _ => none

/-- Translation of `verify_create_ata_instruction` (src/solana/verifier.rs
lines 239-285). -/
def verify_create_ata_instruction (env : Env) (instruction : CompiledInstruction)
    (message : Message) (requirements : PaymentRequirements) :
    Option (Except VerificationError Unit) :=
  match keyAt message instruction.program_id_index with
  | none => none
  | some program_id =>
    if program_id ≠ ata_program_id then
      some (.error .InvalidCreateATAInstruction)
    else if instruction.accounts.length < 6 then
      some (.error .InvalidCreateATAInstruction)
    else
      match instruction.accounts.get? 2, instruction.accounts.get? 3 with
      | some owner_idx, some mint_idx =>
        (match keyAt message owner_idx, keyAt message mint_idx with
        | some owner, some mint =>
          (match env.parsePubkey requirements.pay_to with
          | none => some (.error .CreateATAIncorrectPayee)
          | some pay_to =>
            if owner ≠ pay_to then some (.error .CreateATAIncorrectPayee)
            else
              match env.parsePubkey requirements.asset with
              | none => some (.error .CreateATAIncorrectAsset)
              | some asset =>
                if mint ≠ asset then some (.error .CreateATAIncorrectAsset)
                else some (.ok ()))
        | _, _ => none)
      | _, _ => none

/-- The rendered `anyhow` message of the duplicate-transaction rejection
(src/handlers/verify.rs line 121). -/
def duplicate_msg : String :=
  "Transaction has already been processed (replay attack prevented)"

/-- The rendered `anyhow` message of the expiry rejection
(src/handlers/verify.rs lines 141-146). -/
def expired_msg (age_seconds payment_expiry_seconds : Nat) : String :=
  "Payment has expired (age: " ++ toString age_seconds ++ " seconds, max: " ++
    toString payment_expiry_seconds ++ " seconds)"

/-- Step 7 of `verify_payment` (src/handlers/verify.rs lines 207-214): when
a CreateATA instruction is expected, index instruction 2 and check it;
otherwise succeed immediately. -/
def run_create_ata (env : Env) (transaction : Transaction)
    (requirements : PaymentRequirements) (has_create_ata : Bool) :
    Option (Except VerificationError Unit) :=
  if has_create_ata then
    match transaction.message.instructions.get? 2 with
    | none => none
    | some instruction2 =>
      verify_create_ata_instruction env instruction2 transaction.message requirements
  else some (.ok ())

/-- Step 8 of `verify_payment` (src/handlers/verify.rs lines 216-225): the
transfer instruction sits at index 3 when a CreateATA instruction is
present, else at index 2. -/
def run_transfer (env : Env) (transaction : Transaction)
    (requirements : PaymentRequirements) (fee_payer : Pubkey)
    (has_create_ata : Bool) : Option (Except VerificationError Unit) :=
  match transaction.message.instructions.get? (if has_create_ata then 3 else 2) with
  | none => none
  | some transfer_instruction =>
    verify_transfer_instruction env transfer_instruction transaction.message
      requirements fee_payer has_create_ata

/-- Steps 1-8 of `verify_payment` (src/handlers/verify.rs lines 154-227):
scheme/network agreement, supported-network membership, transaction
decoding, fee-payer parsing, payer-of-record extraction, instruction count,
compute budget checks, fee-payer safety, optional CreateATA check, and the
TransferChecked check.  Stateless: no step past the dedup mark touches the
dedup store (the account cache is not consulted at all, see
`verify_transfer_instruction`). -/
def verify_payment_static (env : Env) (_config : Config) (request : VerifyRequest) :
    Option (Except VerificationError String) :=
  let payload := request.payment_payload
  let requirements := request.payment_requirements
  if payload.scheme ≠ requirements.scheme ∨ payload.scheme ≠ "exact" then
    some (.error .UnsupportedScheme)
  else if payload.network ≠ requirements.network then
    some (.error .InvalidNetwork)
  else if requirements.network ≠ "solana" ∧ requirements.network ≠ "solana-devnet" then
    some (.error .InvalidNetwork)
  else
    match env.decodeTx payload.payload.transaction with
    | .error _ => some (.error (.UnexpectedError "Failed to decode transaction"))
    | .ok transaction =>
      match env.parsePubkey requirements.extra.fee_payer with
      | none => some (.error (.UnexpectedError "Invalid fee payer pubkey"))
      | some fee_payer =>
        let payer :=
          match transaction.message.account_keys.get? 1 with
          | some first_key => env.showPubkey first_key
          | none => "unknown"
        match verify_instruction_count transaction with
        | .error e => some (.error e)
        | .ok has_create_ata =>
          match transaction.message.instructions.get? 0 with
          | none => none
          | some instruction0 =>
            match verify_compute_limit_instruction instruction0 transaction.message with
            | none => none
            | some (.error e) => some (.error e)
            | some (.ok _) =>
              match transaction.message.instructions.get? 1 with
              | none => none
              | some instruction1 =>
                match verify_compute_price_instruction instruction1 transaction.message with
                | none => none
                | some (.error e) => some (.error e)
                | some (.ok _) =>
                  match verify_fee_payer_safety transaction fee_payer with
                  | none => none
                  | some (.error e) => some (.error e)
                  | some (.ok _) =>
                    match run_create_ata env transaction requirements has_create_ata with
                    | none => none
                    | some (.error e) => some (.error e)
                    | some (.ok _) =>
                      match run_transfer env transaction requirements fee_payer
                          has_create_ata with
                      | none => none
                      | some (.error e) => some (.error e)
                      | some (.ok _) => some (.ok payer)

/-- Step 0.5 of `verify_payment` (src/handlers/verify.rs lines 125-152):
the expiry check.  When a timestamp is present, the age is the saturating
difference between the wall clock and the timestamp; an age above
`payment_expiry_seconds` is rejected (as an `UnexpectedError`).  An absent
timestamp skips the check. -/
def verify_payment_checks (env : Env) (config : Config) (request : VerifyRequest) :
    Option (Except VerificationError String) :=
  match request.payment_payload.timestamp with
  | some timestamp =>
    let current_time := env.now
    let age_seconds := current_time - timestamp
    if age_seconds > config.payment_expiry_seconds then
      some (.error (.UnexpectedError (expired_msg age_seconds config.payment_expiry_seconds)))
    else verify_payment_static env config request
  | none => verify_payment_static env config request

/-- Translation of `verify_payment` (src/handlers/verify.rs lines 109-228).
Step 0 consults and marks the dedup store before anything else; a live
fingerprint is rejected with `UnexpectedError` (the source has no dedicated
duplicate error variant).  The returned state is the dedup store after the
call; no later step modifies it. -/
def verify_payment (env : Env) (config : Config) (st : DedupState)
    (request : VerifyRequest) : Option (Except VerificationError String) × DedupState :=
  let transaction_data := request.payment_payload.payload.transaction
  match check_and_mark env st transaction_data with
  | (true, st1) => (some (.error (.UnexpectedError duplicate_msg)), st1)
  | (false, st1) => (verify_payment_checks env config request, st1)

/-- Translation of the POST /verify handler (src/handlers/verify.rs lines
28-106), restricted to the response computation (metrics, audit events and
webhooks are fire-and-forget side effects with no influence on the
response).  `none` models a Rust panic escaping the handler. -/
def verify (env : Env) (config : Config) (st : DedupState) (request : VerifyRequest) :
    Option VerifyResponse × DedupState :=
  match verify_payment env config st request with
  | (none, st1) => (none, st1)
  | (some (.ok payer), st1) => (some ⟨true, none, some payer⟩, st1)
  | (some (.error e), st1) => (some ⟨false, some e.as_str, none⟩, st1)

/-- Translation of `verify_payment_sync` (src/parallel.rs lines 97-206), the
synchronous copy of `verify_payment` used by the batch pipeline.  The
source duplicates the async body statement for statement; the embedding
mirrors that by repeating the same step structure. -/
def verify_payment_sync (env : Env) (config : Config) (st : DedupState)
    (request : VerifyRequest) : Option (Except VerificationError String) × DedupState :=
  let transaction_data := request.payment_payload.payload.transaction
  match check_and_mark env st transaction_data with
  | (true, st1) => (some (.error (.UnexpectedError duplicate_msg)), st1)
  | (false, st1) => (verify_payment_checks env config request, st1)

/-- Translation of `verify_single_sync` (src/parallel.rs lines 58-94): wrap
one synchronous verification into a `VerifyResponse`. -/
def verify_single_sync (env : Env) (config : Config) (st : DedupState)
    (request : VerifyRequest) : Option VerifyResponse × DedupState :=
  match verify_payment_sync env config st request with
  | (none, st1) => (none, st1)
  | (some (.ok payer), st1) => (some ⟨true, none, some payer⟩, st1)
  | (some (.error e), st1) => (some ⟨false, some e.as_str, none⟩, st1)

/-- Translation of `verify_batch_parallel` (src/parallel.rs lines 21-51):
one verification per input request, results in the same positional slots.
The source runs the elements on a Rayon pool over the shared dedup store;
the embedding threads the store through the elements in one of the valid
linearizations (left to right).  A panic in any element (`none`) aborts the
whole batch, as a Rayon panic propagates out of `collect`. -/
def verify_batch_parallel (env : Env) (config : Config) :
    DedupState → List VerifyRequest → Option (List VerifyResponse) × DedupState
  | st, [] => (some [], st)
  | st, request :: rest =>
    match verify_single_sync env config st request with
    | (none, st1) => (none, st1)
    | (some response, st1) =>
      match verify_batch_parallel env config st1 rest with
      | (none, st2) => (none, st2)
      | (some responses, st2) => (some (response :: responses), st2)

/-- Translation of the POST /verify/batch handler (src/handlers/batch.rs
lines 61-95): empty input short-circuits to an empty output; a panicked
batch task is caught by `unwrap_or_else` and yields an empty output. -/
def verify_batch (env : Env) (config : Config) (st : DedupState)
    (requests : List VerifyRequest) : List VerifyResponse × DedupState :=
  if requests.length = 0 then ([], st)
  else
    match verify_batch_parallel env config st requests with
    | (none, st1) => ([], st1)
    | (some responses, st1) => (responses, st1)

/-- Translation of `settle_transaction` (src/handlers/settle.rs lines
125-158): decode again, load the fee-payer keypair, sign as fee payer, and
submit with retries; each step's external is provided by the environment
and its error message is propagated. -/
def settle_transaction (env : Env) (config : Config) (request : SettleRequest) :
    Except String String :=
  match env.decodeTx request.payment_payload.payload.transaction with
  | .error e => .error e
  | .ok transaction =>
    match env.loadKeypair config.fee_payer_private_key with
    | .error e => .error e
    | .ok fee_payer =>
      match env.signTx transaction fee_payer with
      | .error e => .error e
      | .ok signed =>
        match env.submitTx signed with
        | .error e => .error e
        | .ok signature => .ok signature

/-- Translation of the POST /settle handler (src/handlers/settle.rs lines
28-122), restricted to the response computation: run the verify handler
first; when it reports invalid, return a failure response carrying over the
verify payer and reason, without invoking `settle_transaction` (so without
signing or submitting); otherwise sign and submit. -/
def settle (env : Env) (config : Config) (st : DedupState) (request : SettleRequest) :
    Option SettleResponse × DedupState :=
  let network := request.payment_requirements.network
  let verify_request : VerifyRequest :=
    ⟨request.payment_payload, request.payment_requirements⟩
  match verify env config st verify_request with
  | (none, st1) => (none, st1)
  | (some verify_response, st1) =>
    if verify_response.is_valid = false then
      (some ⟨false, network, "", verify_response.payer, verify_response.invalid_reason⟩, st1)
    else
      match settle_transaction env config request with
      | .ok signature =>
        (some ⟨true, network, signature, verify_response.payer, none⟩, st1)
      | .error e =>
        (some ⟨false, network, "", verify_response.payer,
          some ("settle_error: " ++ e)⟩, st1)

/-! Concrete fixtures used by witnesses and counterexamples.  The account
key table of the well-formed transaction is
`[fee_payer, client, source, mint, destination, compute_budget, spl_token]`
at indices 0-6. -/

/-- A well-formed 3-instruction transaction: SetComputeUnitLimit,
SetComputeUnitPrice(100), TransferChecked of 1 000 000 units from the
client's source account to the expected destination ATA. -/
def txOK : Transaction :=
  ⟨[9], ⟨[100, 101, 102, 103, 104, 1, 2],
    [⟨5, [], [2]⟩,
     ⟨5, [], [3, 100, 0, 0, 0, 0, 0, 0, 0]⟩,
     ⟨6, [2, 3, 4, 1], [12, 64, 66, 15, 0, 0, 0, 0, 0, 6]⟩]⟩⟩

/-- Like `txOK` but the TransferChecked authority (account position 3) is
index 0, the fee payer. -/
def txC1 : Transaction :=
  ⟨[9], ⟨[100, 101, 102, 103, 104, 1, 2],
    [⟨5, [], [2]⟩,
     ⟨5, [], [3, 100, 0, 0, 0, 0, 0, 0, 0]⟩,
     ⟨6, [2, 3, 4, 0], [12, 64, 66, 15, 0, 0, 0, 0, 0, 6]⟩]⟩⟩

/-- A decodable transaction whose first instruction carries an out-of-range
`program_id_index` (7 with only 7 keys would be fine; here 9): bincode
performs no index validation, so this decodes. -/
def txPanic : Transaction :=
  ⟨[9], ⟨[100, 101, 102],
    [⟨9, [], [2]⟩,
     ⟨9, [], [3, 100, 0, 0, 0, 0, 0, 0, 0]⟩,
     ⟨9, [0], [12, 64, 66, 15, 0, 0, 0, 0, 0, 6]⟩]⟩⟩

/-- Like `txOK` but the TransferChecked amount is 999 999. -/
def txShort : Transaction :=
  ⟨[9], ⟨[100, 101, 102, 103, 104, 1, 2],
    [⟨5, [], [2]⟩,
     ⟨5, [], [3, 100, 0, 0, 0, 0, 0, 0, 0]⟩,
     ⟨6, [2, 3, 4, 1], [12, 63, 66, 15, 0, 0, 0, 0, 0, 6]⟩]⟩⟩

/-- A concrete environment: blobs "TXOK", "TXC1", "TXPANIC", "TXSHORT"
decode to the fixture transactions; base58 keys "F", "P", "A" parse to 100,
50 and 60; the ATA of (50, 60) is 104; accounts 102 and 104 exist on
chain. -/
def envFix : Env :=
  ⟨fun s =>
      if s = "TXOK" then .ok txOK
      else if s = "TXC1" then .ok txC1
      else if s = "TXPANIC" then .ok txPanic
      else if s = "TXSHORT" then .ok txShort
      else .error "Failed to decode base64: invalid",
   fun s => if s = "F" then some 100 else if s = "P" then some 50
      else if s = "A" then some 60 else none,
   fun n => toString n,
   fun s => s ++ "#sha",
   fun k => if k = 102 ∨ k = 104 then some 7 else none,
   fun p a => if p = 50 ∧ a = 60 then 104 else 0,
   1000,
   fun _ => .ok 77,
   fun t _ => .ok t,
   fun _ => .ok "SIG"⟩

/-- The concrete configuration: default expiry 600 s. -/
def cfgFix : Config := ⟨"KEY", "solana-devnet", 600⟩

/-- Concrete payment requirements matching `txOK`. -/
def reqsFix : PaymentRequirements :=
  ⟨"exact", "solana-devnet", "1000000", "A", "P", "/r", "d",
    "application/json", 30, ⟨"F"⟩⟩

/-- A concrete verify request around a given blob, network and timestamp. -/
def mkReq (blob network : String) (timestamp : Option Nat) : VerifyRequest :=
  ⟨⟨1, "exact", network, ⟨blob⟩, timestamp⟩,
   ⟨"exact", network, "1000000", "A", "P", "/r", "d",
     "application/json", 30, ⟨"F"⟩⟩⟩

/-- The fixture cache holding the transfer source account 102. -/
def cacheFix : AccountCacheState := [(102, 7)]

/-- The fixture environment with a failing (or unreachable) chain RPC. -/
def envNoRpc : Env :=
  ⟨envFix.decodeTx, envFix.parsePubkey, envFix.showPubkey, envFix.sha256Hex,
    fun _ => none, envFix.ataDerive, envFix.now, envFix.loadKeypair,
    envFix.signTx, envFix.submitTx⟩

/-- The dedup-store states at which the batch linearization runs each
element: element `i` runs at the state left behind by elements `0..i-1`. -/
def dedup_trace (env : Env) (config : Config) :
    DedupState → List VerifyRequest → List DedupState
  | _, [] => []
  | st, request :: rest =>
    st :: dedup_trace env config (verify_single_sync env config st request).2 rest

/-! General lemmas about the pipeline steps, shared across the claim
theorems. -/

/-- A call whose fingerprint is live is rejected by step 0 with the
duplicate `UnexpectedError` and leaves the store unchanged. -/
theorem verify_payment_dup (env : Env) (config : Config) (st : DedupState)
    (request : VerifyRequest)
    (h : hash_transaction env request.payment_payload.payload.transaction ∈ st) :
    verify_payment env config st request =
      (some (.error (.UnexpectedError duplicate_msg)), st) := by
  simp [verify_payment, check_and_mark, h]

/-- A call whose fingerprint is not yet live marks it and proceeds with the
remaining checks. -/
theorem verify_payment_fresh (env : Env) (config : Config) (st : DedupState)
    (request : VerifyRequest)
    (h : hash_transaction env request.payment_payload.payload.transaction ∉ st) :
    verify_payment env config st request =
      (verify_payment_checks env config request,
        hash_transaction env request.payment_payload.payload.transaction :: st) := by
  simp [verify_payment, check_and_mark, h]

/-- After any verify call the payload's fingerprint is live in the returned
store. -/
theorem mem_state_after_verify (env : Env) (config : Config) (st : DedupState)
    (request : VerifyRequest) :
    hash_transaction env request.payment_payload.payload.transaction ∈
      (verify_payment env config st request).2 := by
  by_cases h : hash_transaction env request.payment_payload.payload.transaction ∈ st
  · rw [verify_payment_dup env config st request h]
    exact h
  · rw [verify_payment_fresh env config st request h]
    exact List.mem_cons_self _ _

/-- An absent timestamp skips the expiry check. -/
theorem checks_no_timestamp (env : Env) (config : Config) (request : VerifyRequest)
    (h : request.payment_payload.timestamp = none) :
    verify_payment_checks env config request = verify_payment_static env config request := by
  simp [verify_payment_checks, h]

/-- A timestamp within the expiry window passes the expiry check; the
saturating age of a future timestamp is zero, so this includes every
future timestamp. -/
theorem checks_recent (env : Env) (config : Config) (request : VerifyRequest)
    (t : Nat) (h : request.payment_payload.timestamp = some t)
    (hage : env.now - t ≤ config.payment_expiry_seconds) :
    verify_payment_checks env config request = verify_payment_static env config request := by
  simp [verify_payment_checks, h, Nat.not_lt.mpr hage]

/-- A timestamp older than the expiry window is rejected with the
expiry-shaped `UnexpectedError`. -/
theorem checks_expired (env : Env) (config : Config) (request : VerifyRequest)
    (t : Nat) (h : request.payment_payload.timestamp = some t)
    (hage : env.now - t > config.payment_expiry_seconds) :
    verify_payment_checks env config request =
      some (.error (.UnexpectedError
        (expired_msg (env.now - t) config.payment_expiry_seconds))) := by
  simp [verify_payment_checks, h, hage]

/-- The verify handler passes the dedup store of `verify_payment` through
unchanged. -/
theorem verify_snd (env : Env) (config : Config) (st : DedupState)
    (request : VerifyRequest) :
    (verify env config st request).2 = (verify_payment env config st request).2 := by
  unfold verify
  rcases hv : verify_payment env config st request with ⟨r, st1⟩
  cases r with
  | none => rfl
  | some x => cases x <;> rfl

/-- C2 (amended): two verify calls on the byte-identical blob within the
dedup window succeed at most once; the second call is rejected by the dedup
step — but the source has no `duplicate_transaction` error variant, so the
rejection is the duplicate-shaped `UnexpectedError`, whose stable tag in
`invalidReason` is `unexpected_verify_error`.  First conjunct: at pipeline
level the second call always returns the duplicate `UnexpectedError`
(hence success at most once).  Second conjunct: at handler level the
second response is invalid with `invalidReason` equal to
`unexpected_verify_error`. -/
theorem c2_second_call_rejected_unexpected :
    (∀ (env : Env) (config : Config) (st : DedupState) (request : VerifyRequest),
      verify_payment env config (verify_payment env config st request).2 request =
        (some (.error (.UnexpectedError duplicate_msg)),
          (verify_payment env config st request).2))
    ∧ (∀ (env : Env) (config : Config) (st : DedupState) (request : VerifyRequest),
      (verify env config (verify env config st request).2 request).1 =
        some ⟨false, some "unexpected_verify_error", none⟩) := by
  constructor
  · intro env config st request
    exact verify_payment_dup env config _ request
      (mem_state_after_verify env config st request)
  · intro env config st request
    rw [verify_snd env config st request]
    unfold verify
    rw [verify_payment_dup env config _ request
      (mem_state_after_verify env config st request)]
    rfl

/-- C2 counterexample: a byte-identical resubmission of a verified payload
is rejected with `invalidReason` equal to `unexpected_verify_error`, which
is not the tag `duplicate_transaction` the claim states. -/
theorem c2_counterexample :
    (verify envFix cfgFix
        (verify envFix cfgFix [] (mkReq "TXOK" "solana-devnet" none)).2
        (mkReq "TXOK" "solana-devnet" none)).1 =
      some ⟨false, some "unexpected_verify_error", none⟩
    ∧ some "unexpected_verify_error" ≠ some "duplicate_transaction" :=
  ⟨by rfl, by decide⟩

/-- C3 (confirmed): a settle call whose payload fingerprint is already live
in the dedup store (for instance after an immediately preceding successful
verify of the same payload) is rejected by the re-run verification's dedup
step: the response has `success = false`, carries the verification's error
tag (`unexpected_verify_error`, the tag of the duplicate rejection) as
`errorReason`, and equals this fixed response for every environment — in
particular the result does not depend on the environment's signing or
submission functions, which only the skipped `settle_transaction` invokes,
so the transaction is neither signed with the fee-payer key nor
submitted. -/
theorem c3_settle_marked_rejected (env : Env) (config : Config) (st : DedupState)
    (request : SettleRequest)
    (h : hash_transaction env request.payment_payload.payload.transaction ∈ st) :
    settle env config st request =
      (some ⟨false, request.payment_requirements.network, "", none,
        some "unexpected_verify_error"⟩, st) := by
  have hv : verify env config st
      ⟨request.payment_payload, request.payment_requirements⟩ =
      (some ⟨false, some "unexpected_verify_error", none⟩, st) := by
    unfold verify
    rw [verify_payment_dup env config st _ h]
    rfl
  simp [settle, hv]

/-- C3 witness: the settle rejection at a concrete marked payload. -/
theorem c3_witness :
    settle envFix cfgFix ["TXOK#sha"]
        ⟨⟨1, "exact", "solana-devnet", ⟨"TXOK"⟩, none⟩, reqsFix⟩ =
      (some ⟨false, "solana-devnet", "", none, some "unexpected_verify_error"⟩,
        ["TXOK#sha"]) :=
  c3_settle_marked_rejected envFix cfgFix ["TXOK#sha"] _ (by decide)

/-- C8 (code bug): a decodable transaction whose first instruction carries
an out-of-range `program_id_index` makes the verifier index
`account_keys` out of range — a Rust panic, modelled as `none`.  The panic
is not mapped to the `unexpected_verify_error` tag: the verify handler has
no catch layer (first two conjuncts), and in the batch handler the panic
aborts the whole batch, which degrades to an empty response losing even the
well-formed request's slot (third conjunct). -/
theorem c8_decodable_transaction_panics :
    verify_payment envFix cfgFix [] (mkReq "TXPANIC" "solana-devnet" none) =
      (none, ["TXPANIC#sha"])
    ∧ (verify envFix cfgFix [] (mkReq "TXPANIC" "solana-devnet" none)).1 = none
    ∧ verify_batch envFix cfgFix []
        [mkReq "TXPANIC" "solana-devnet" none, mkReq "TXOK" "solana-devnet" none] =
      ([], ["TXPANIC#sha"]) :=
  ⟨by rfl, by rfl, by rfl⟩

/-- C4 (amended): the expiry step rejects exactly when the saturating age
`now - t` exceeds `payment_expiry_seconds` (so a future timestamp, age 0,
passes), a timestamp within the window leaves the pipeline to run the
remaining checks, and an absent timestamp skips the check — but the source
has no `payment_expired` error variant: the rejection is the expiry-shaped
`UnexpectedError`, whose stable tag is `unexpected_verify_error` (last
conjunct). -/
theorem c4_expiry_semantics :
    (∀ (env : Env) (config : Config) (st : DedupState) (request : VerifyRequest)
      (t : Nat), request.payment_payload.timestamp = some t →
      hash_transaction env request.payment_payload.payload.transaction ∉ st →
      env.now - t > config.payment_expiry_seconds →
      verify_payment env config st request =
        (some (.error (.UnexpectedError
          (expired_msg (env.now - t) config.payment_expiry_seconds))),
          hash_transaction env request.payment_payload.payload.transaction :: st))
    ∧ (∀ (env : Env) (config : Config) (st : DedupState) (request : VerifyRequest)
      (t : Nat), request.payment_payload.timestamp = some t →
      hash_transaction env request.payment_payload.payload.transaction ∉ st →
      env.now - t ≤ config.payment_expiry_seconds →
      verify_payment env config st request =
        (verify_payment_static env config request,
          hash_transaction env request.payment_payload.payload.transaction :: st))
    ∧ (∀ (env : Env) (config : Config) (st : DedupState) (request : VerifyRequest),
      request.payment_payload.timestamp = none →
      hash_transaction env request.payment_payload.payload.transaction ∉ st →
      verify_payment env config st request =
        (verify_payment_static env config request,
          hash_transaction env request.payment_payload.payload.transaction :: st))
    ∧ (∀ a b : Nat,
      (VerificationError.UnexpectedError (expired_msg a b)).as_str =
        "unexpected_verify_error") := by
  refine ⟨?_, ?_, ?_, ?_⟩
  · intro env config st request t ht hmem hage
    rw [verify_payment_fresh env config st request hmem,
      checks_expired env config request t ht hage]
  · intro env config st request t ht hmem hage
    rw [verify_payment_fresh env config st request hmem,
      checks_recent env config request t ht hage]
  · intro env config st request ht hmem
    rw [verify_payment_fresh env config st request hmem,
      checks_no_timestamp env config request ht]
  · intro a b
    rfl

/-- C4 witness: a payload stamped 1000 seconds before a wall clock of 1000
with expiry 600 is rejected with the expiry-shaped `UnexpectedError`. -/
theorem c4_witness :
    verify_payment envFix cfgFix [] (mkReq "TXOK" "solana-devnet" (some 0)) =
      (some (.error (.UnexpectedError (expired_msg 1000 600))), ["TXOK#sha"]) := by
  have h := c4_expiry_semantics.1 envFix cfgFix []
    (mkReq "TXOK" "solana-devnet" (some 0)) 0 (by rfl) (by decide) (by decide)
  exact h

/-- C4 counterexample: the expired payload's `invalidReason` is
`unexpected_verify_error`, not the tag `payment_expired` the claim
states. -/
theorem c4_counterexample :
    (verify envFix cfgFix [] (mkReq "TXOK" "solana-devnet" (some 0))).1 =
      some ⟨false, some "unexpected_verify_error", none⟩
    ∧ some "unexpected_verify_error" ≠ some "payment_expired" :=
  ⟨by rfl, by decide⟩

/-- The scheme/network step rejects with `InvalidNetwork` whenever both
sides agree on scheme `exact` and on a network that is neither `solana` nor
`solana-devnet`. -/
theorem static_network_unsupported (env : Env) (config : Config)
    (request : VerifyRequest)
    (h1 : request.payment_payload.scheme = "exact")
    (h2 : request.payment_requirements.scheme = "exact")
    (h3 : request.payment_payload.network = request.payment_requirements.network)
    (h4 : request.payment_requirements.network ≠ "solana")
    (h5 : request.payment_requirements.network ≠ "solana-devnet") :
    verify_payment_static env config request = some (.error .InvalidNetwork) := by
  unfold verify_payment_static
  simp [h1, h2, h3, h4, h5]

/-- C10 (corrected, amended): a request carrying network `solana-testnet`
on both sides (scheme `exact`, fresh fingerprint, expiry passing) is
rejected by the scheme/network step with `InvalidNetwork`, because the
verification pipeline accepts only `solana` and `solana-devnet`; the
/supported endpoint likewise lists only `solana-devnet` and `solana` for
the `exact` scheme.  Only the configuration validator accepts
`solana-testnet` as a process network value (last conjunct). -/
theorem c10_testnet_rejected :
    (∀ (env : Env) (config : Config) (st : DedupState) (request : VerifyRequest),
      request.payment_payload.scheme = "exact" →
      request.payment_requirements.scheme = "exact" →
      request.payment_payload.network = "solana-testnet" →
      request.payment_requirements.network = "solana-testnet" →
      hash_transaction env request.payment_payload.payload.transaction ∉ st →
      (∀ t, request.payment_payload.timestamp = some t →
        env.now - t ≤ config.payment_expiry_seconds) →
      verify_payment env config st request =
        (some (.error .InvalidNetwork),
          hash_transaction env request.payment_payload.payload.transaction :: st))
    ∧ supported.schemes = [⟨"exact", ["solana-devnet", "solana"]⟩]
    ∧ "solana-testnet" ∉ ["solana-devnet", "solana"]
    ∧ "solana-testnet" ∈ valid_networks := by
  refine ⟨?_, by rfl, by decide, by decide⟩
  intro env config st request h1 h2 h3 h4 hmem hts
  have hstat : verify_payment_static env config request =
      some (.error .InvalidNetwork) :=
    static_network_unsupported env config request h1 h2 (h3.trans h4.symm)
      (by rw [h4]; decide) (by rw [h4]; decide)
  rw [verify_payment_fresh env config st request hmem]
  cases hcase : request.payment_payload.timestamp with
  | none => rw [checks_no_timestamp env config request hcase, hstat]
  | some t =>
    rw [checks_recent env config request t hcase (hts t hcase), hstat]

/-- C10 witness: the concrete testnet request is rejected with
`InvalidNetwork`. -/
theorem c10_witness :
    verify_payment envFix cfgFix [] (mkReq "TXOK" "solana-testnet" none) =
      (some (.error .InvalidNetwork), ["TXOK#sha"]) :=
  c10_testnet_rejected.1 envFix cfgFix [] (mkReq "TXOK" "solana-testnet" none)
    (by rfl) (by rfl) (by rfl) (by rfl) (by decide) (by intro t ht; cases ht)

/-- C10 counterexample: the testnet request's `invalidReason` is
`invalid_network`, and `solana-testnet` is absent from the /supported
response — contradicting the claim. -/
theorem c10_counterexample :
    (verify envFix cfgFix [] (mkReq "TXOK" "solana-testnet" none)).1 =
      some ⟨false, some "invalid_network", none⟩
    ∧ supported.schemes = [⟨"exact", ["solana-devnet", "solana"]⟩]
    ∧ "solana-testnet" ∉ ["solana-devnet", "solana"] :=
  ⟨by rfl, by rfl, by decide⟩

/-- C7 (confirmed): a well-formed compute-price instruction (compute-budget
program, discriminator 3, at least 9 data bytes) is rejected with
`ComputePriceTooHigh` exactly when the 8-byte little-endian micro-lamport
price strictly exceeds 5 000 000; any price up to and including 5 000 000
passes the ceiling check (the check succeeds outright, as the ceiling is
its last step). -/
theorem c7_compute_price_ceiling :
    ∀ (pidx : Nat) (accts rest : List Nat) (message : Message),
      keyAt message pidx = some compute_budget_program_id →
      rest.length ≥ 8 →
      ((fromLeBytes (rest.take 8) > 5000000 →
        verify_compute_price_instruction ⟨pidx, accts, 3 :: rest⟩ message =
          some (.error .ComputePriceTooHigh))
      ∧ (fromLeBytes (rest.take 8) ≤ 5000000 →
        verify_compute_price_instruction ⟨pidx, accts, 3 :: rest⟩ message =
          some (.ok ()))) := by
  intro pidx accts rest message hpid hlen
  have hl : ¬ ((3 :: rest).length < 9) := by
    simp only [List.length_cons]
    omega
  constructor
  · intro hp
    simp [verify_compute_price_instruction, hpid, hl, hlen, hp]
  · intro hp
    simp [verify_compute_price_instruction, hpid, hl, hlen, Nat.not_lt.mpr hp]

/-- C7 witness: in the fixture message, a price of 5 000 001 is rejected
with `ComputePriceTooHigh` and a price of 5 000 000 passes. -/
theorem c7_witness :
    verify_compute_price_instruction ⟨5, [], [3, 65, 75, 76, 0, 0, 0, 0, 0]⟩
        txOK.message = some (.error .ComputePriceTooHigh)
    ∧ verify_compute_price_instruction ⟨5, [], [3, 64, 75, 76, 0, 0, 0, 0, 0]⟩
        txOK.message = some (.ok ()) :=
  ⟨(c7_compute_price_ceiling 5 [] [65, 75, 76, 0, 0, 0, 0, 0] txOK.message
      (by rfl) (by decide)).1 (by decide),
   (c7_compute_price_ceiling 5 [] [64, 75, 76, 0, 0, 0, 0, 0] txOK.message
      (by rfl) (by decide)).2 (by decide)⟩

/-- C6 (confirmed): a TransferChecked instruction that reaches the amount
comparison (token program, discriminator 12, at least 10 data bytes, and a
parsable required amount) is rejected with `AmountMismatch` exactly when
the 8-byte little-endian amount differs from the decimal
`max_amount_required` — strict equality, so a smaller amount is also
rejected; when the amounts are equal the check never yields
`AmountMismatch` (any later rejection carries a different tag). -/
theorem c6_amount_equality :
    ∀ (env : Env) (pidx : Nat) (accts rest : List Nat) (message : Message)
      (requirements : PaymentRequirements) (fee_payer : Pubkey)
      (has_create_ata : Bool) (required : Nat),
      (keyAt message pidx = some spl_token_program_id ∨
        keyAt message pidx = some spl_token_2022_program_id) →
      rest.length ≥ 9 →
      parseU64 requirements.max_amount_required = some required →
      ((fromLeBytes (rest.take 8) ≠ required →
        verify_transfer_instruction env ⟨pidx, accts, 12 :: rest⟩ message
          requirements fee_payer has_create_ata = some (.error .AmountMismatch))
      ∧ (fromLeBytes (rest.take 8) = required →
        verify_transfer_instruction env ⟨pidx, accts, 12 :: rest⟩ message
          requirements fee_payer has_create_ata ≠
            some (.error .AmountMismatch))) := by
  intro env pidx accts rest message requirements fee_payer has_create_ata required
    hpid hlen hparse
  have hl : ¬ ((12 :: rest).length < 10) := by
    simp only [List.length_cons]
    omega
  constructor
  · intro hne
    rcases hpid with h | h <;>
      simp [verify_transfer_instruction, h, hl, hlen, hparse, hne]
  · intro heq
    rcases hpid with h | h
    all_goals
      intro hcontra
      simp [verify_transfer_instruction, h, hl, hlen, hparse, heq] at hcontra
      repeat' split at hcontra
      all_goals simp_all

/-- C6 witness: in the fixture, the transfer of 999 999 against a required
1 000 000 is rejected with `AmountMismatch`, and the transfer of exactly
1 000 000 is not rejected by the amount check. -/
theorem c6_witness :
    verify_transfer_instruction envFix
        ⟨6, [2, 3, 4, 1], [12, 63, 66, 15, 0, 0, 0, 0, 0, 6]⟩
        txOK.message reqsFix 100 false = some (.error .AmountMismatch)
    ∧ verify_transfer_instruction envFix
        ⟨6, [2, 3, 4, 1], [12, 64, 66, 15, 0, 0, 0, 0, 0, 6]⟩
        txOK.message reqsFix 100 false ≠ some (.error .AmountMismatch) :=
  ⟨(c6_amount_equality envFix 6 [2, 3, 4, 1] [63, 66, 15, 0, 0, 0, 0, 0, 6]
      txOK.message reqsFix 100 false 1000000 (Or.inl (by rfl)) (by decide)
      (by decide)).1 (by decide),
   (c6_amount_equality envFix 6 [2, 3, 4, 1] [64, 66, 15, 0, 0, 0, 0, 0, 6]
      txOK.message reqsFix 100 false 1000000 (Or.inl (by rfl)) (by decide)
      (by decide)).2 (by decide)⟩

/-- C5 (corrected, amended): the helper `check_account_exists` is indeed
cache-first with insert-on-RPC-success and not-found on RPC failure (first
three conjuncts, for every environment — a cache hit never consults the
RPC and leaves the cache unchanged).  But the verification's transfer
check does not call it: `verify_transfer_instruction` takes no cache at
all and resolves the source-existence check directly against the RPC, so
with a failing RPC it reports `SenderATANotFound` regardless of any cached
entry (last conjunct). -/
theorem c5_cache_bypass :
    (∀ (env : Env) (cache : AccountCacheState) (pubkey : Pubkey) (account : Account),
      AccountCache.get cache pubkey = some account →
      check_account_exists env cache pubkey = (true, cache))
    ∧ (∀ (env : Env) (cache : AccountCacheState) (pubkey : Pubkey) (account : Account),
      AccountCache.get cache pubkey = none →
      env.getAccount pubkey = some account →
      check_account_exists env cache pubkey =
        (true, AccountCache.insert cache pubkey account))
    ∧ (∀ (env : Env) (cache : AccountCacheState) (pubkey : Pubkey),
      AccountCache.get cache pubkey = none →
      env.getAccount pubkey = none →
      check_account_exists env cache pubkey = (false, cache))
    ∧ (∀ (env : Env) (pidx i0 i1 i2 i3 : Nat) (more rest : List Nat)
        (message : Message) (requirements : PaymentRequirements)
        (fee_payer pay_to asset source destination authority : Pubkey)
        (has_create_ata : Bool),
      keyAt message pidx = some spl_token_program_id →
      rest.length ≥ 9 →
      parseU64 requirements.max_amount_required = some (fromLeBytes (rest.take 8)) →
      keyAt message i0 = some source →
      keyAt message i2 = some destination →
      keyAt message i3 = some authority →
      authority ≠ fee_payer →
      env.parsePubkey requirements.pay_to = some pay_to →
      env.parsePubkey requirements.asset = some asset →
      destination = env.ataDerive pay_to asset →
      env.getAccount source = none →
      verify_transfer_instruction env ⟨pidx, i0 :: i1 :: i2 :: i3 :: more, 12 :: rest⟩
          message requirements fee_payer has_create_ata =
        some (.error .SenderATANotFound)) := by
  refine ⟨?_, ?_, ?_, ?_⟩
  · intro env cache pubkey account h
    simp [check_account_exists, h]
  · intro env cache pubkey account h hr
    simp [check_account_exists, h, hr]
  · intro env cache pubkey h hr
    simp [check_account_exists, h, hr]
  · intro env pidx i0 i1 i2 i3 more rest message requirements fee_payer pay_to
      asset source destination authority has_create_ata hpid hlen hparse h0 h2 h3
      hauth hp ha hd hrpc
    have hl : ¬ ((12 :: rest).length < 10) := by
      simp only [List.length_cons]
      omega
    have hacc : ¬ ((i0 :: i1 :: i2 :: i3 :: more).length < 4) := by
      simp only [List.length_cons]
      omega
    simp [verify_transfer_instruction, hpid, hl, hlen, hparse, hacc, h0, h2, h3,
      hauth, hp, ha, hd, hrpc]
    rw [if_neg (by omega), if_neg (by omega)]

/-- C5 witness: the source-existence rejection under a failing RPC at the
concrete fixture instruction. -/
theorem c5_witness :
    verify_transfer_instruction envNoRpc
        ⟨6, [2, 3, 4, 1], [12, 64, 66, 15, 0, 0, 0, 0, 0, 6]⟩
        txOK.message reqsFix 100 false = some (.error .SenderATANotFound) :=
  c5_cache_bypass.2.2.2 envNoRpc 6 2 3 4 1 [] [64, 66, 15, 0, 0, 0, 0, 0, 6]
    txOK.message reqsFix 100 50 60 102 104 101 false (by rfl) (by decide)
    (by decide) (by rfl) (by rfl) (by rfl) (by decide) (by rfl) (by rfl)
    (by decide) (by rfl)

/-- C5 counterexample: the transfer source 102 is live in the account
cache, yet verification reports `SenderATANotFound` when the RPC fails —
both at the instruction check and through the whole pipeline — so the
verifier issued the RPC lookup for a cached key, contradicting the
claim. -/
theorem c5_counterexample :
    AccountCache.get cacheFix 102 = some 7
    ∧ check_account_exists envNoRpc cacheFix 102 = (true, cacheFix)
    ∧ verify_transfer_instruction envNoRpc
        ⟨6, [2, 3, 4, 1], [12, 64, 66, 15, 0, 0, 0, 0, 0, 6]⟩
        txOK.message reqsFix 100 false = some (.error .SenderATANotFound)
    ∧ verify_payment envNoRpc cfgFix [] (mkReq "TXOK" "solana-devnet" none) =
      (some (.error .SenderATANotFound), ["TXOK#sha"]) :=
  ⟨by rfl, by rfl, by rfl, by rfl⟩

/-- C9 (confirmed): the synchronous batch verification agrees with the
async single-request pipeline on every request, state and environment,
error tags included (first conjunct, definitional because the source
duplicates the pipeline statement for statement); empty input yields empty
output (second conjunct); and a batch run that completes (no element
panics) yields exactly one output per input in the same positional slot,
each equal to the single-request verification of that slot's input at its
linearization state — a failed element contributes its failure response
and does not abort the batch (third conjunct). -/
theorem c9_batch_refinement :
    (∀ (env : Env) (config : Config) (st : DedupState) (request : VerifyRequest),
      verify_payment_sync env config st request = verify_payment env config st request)
    ∧ (∀ (env : Env) (config : Config) (st : DedupState),
      verify_batch_parallel env config st [] = (some [], st))
    ∧ (∀ (env : Env) (config : Config) (st st1 : DedupState)
        (requests : List VerifyRequest) (responses : List VerifyResponse),
      verify_batch_parallel env config st requests = (some responses, st1) →
      responses.length = requests.length
      ∧ ∀ (i : Nat) (request : VerifyRequest) (stMid : DedupState),
          requests.get? i = some request →
          (dedup_trace env config st requests).get? i = some stMid →
          responses.get? i = (verify_single_sync env config stMid request).1) := by
  refine ⟨fun env config st request => rfl, fun env config st => rfl, ?_⟩
  intro env config st st1 requests responses h
  induction requests generalizing st st1 responses with
  | nil =>
    simp only [verify_batch_parallel, Prod.mk.injEq, Option.some.injEq] at h
    obtain ⟨h1, _⟩ := h
    subst h1
    exact ⟨rfl, fun i request stMid hreq _ => by cases hreq⟩
  | cons r rest ih =>
    simp only [verify_batch_parallel] at h
    split at h
    · exact absurd h (by simp)
    · rename_i resp stA hs
      split at h
      · exact absurd h (by simp)
      · rename_i resps stB hb
        simp only [Prod.mk.injEq, Option.some.injEq] at h
        obtain ⟨h1, h2⟩ := h
        subst h1
        obtain ⟨ihlen, ihel⟩ := ih stA stB resps hb
        refine ⟨by simp [ihlen], ?_⟩
        intro i request stMid hreq htrace
        cases i with
        | zero =>
          obtain rfl : r = request := by
            simpa using hreq
          have hmid : stMid = st := by
            have := htrace
            simp [dedup_trace] at this
            exact this.symm
          subst hmid
          simp [hs]
        | succ n =>
          have htr : (dedup_trace env config stA rest).get? n = some stMid := by
            simpa [dedup_trace, hs] using htrace
          have hrq : rest.get? n = some request := by
            simpa using hreq
          simpa using ihel n request stMid hrq htr

/-- C9 witness: a one-element batch whose element fails verification still
yields that element's failure response in slot 0, equal to the
single-request pipeline's response. -/
theorem c9_witness :
    ([(⟨false, some "invalid_exact_svm_payload_transaction_amount_mismatch",
        none⟩ : VerifyResponse)]).get? 0 =
      (verify_single_sync envFix cfgFix []
        (mkReq "TXSHORT" "solana-devnet" none)).1 :=
  (c9_batch_refinement.2.2 envFix cfgFix [] ["TXSHORT#sha"]
      [mkReq "TXSHORT" "solana-devnet" none]
      [⟨false, some "invalid_exact_svm_payload_transaction_amount_mismatch", none⟩]
      (by rfl)).2 0 (mkReq "TXSHORT" "solana-devnet" none) [] (by rfl) (by rfl)

/-! Lemmas for C1: no pipeline path can emit `FeePayerTransferringFunds`,
because the cross-instruction fee-payer-safety check runs first. -/

/-- The compute-limit check never produces `FeePayerTransferringFunds`. -/
theorem limit_not_fptf (instruction : CompiledInstruction) (message : Message) :
    verify_compute_limit_instruction instruction message ≠
      some (.error .FeePayerTransferringFunds) := by
  unfold verify_compute_limit_instruction
  repeat' split
  all_goals simp

/-- The compute-price check never produces `FeePayerTransferringFunds`. -/
theorem price_not_fptf (instruction : CompiledInstruction) (message : Message) :
    verify_compute_price_instruction instruction message ≠
      some (.error .FeePayerTransferringFunds) := by
  simp only [verify_compute_price_instruction]
  repeat' split
  all_goals simp

/-- The instruction-count check never produces
`FeePayerTransferringFunds`. -/
theorem count_not_fptf (tx : Transaction) :
    verify_instruction_count tx ≠ .error .FeePayerTransferringFunds := by
  simp only [verify_instruction_count]
  split <;> simp

/-- The create-ATA check never produces `FeePayerTransferringFunds`. -/
theorem create_ata_not_fptf (env : Env) (instruction : CompiledInstruction)
    (message : Message) (requirements : PaymentRequirements) :
    verify_create_ata_instruction env instruction message requirements ≠
      some (.error .FeePayerTransferringFunds) := by
  unfold verify_create_ata_instruction
  repeat' split
  all_goals simp

/-- The fee-payer safety scan never produces
`FeePayerTransferringFunds`. -/
theorem scan_not_fptf (message : Message) (fee_payer : Pubkey)
    (l : List CompiledInstruction) :
    fee_payer_scan message fee_payer l ≠
      some (.error .FeePayerTransferringFunds) := by
  induction l with
  | nil => simp [fee_payer_scan]
  | cons instruction rest ih =>
    unfold fee_payer_scan
    split <;> simp_all

/-- The fee-payer safety check never produces
`FeePayerTransferringFunds`. -/
theorem safety_not_fptf (tx : Transaction) (fee_payer : Pubkey) :
    verify_fee_payer_safety tx fee_payer ≠
      some (.error .FeePayerTransferringFunds) :=
  scan_not_fptf tx.message fee_payer tx.message.instructions

/-- The create-ATA step never produces `FeePayerTransferringFunds`. -/
theorem run_create_ata_not_fptf (env : Env) (transaction : Transaction)
    (requirements : PaymentRequirements) (has_create_ata : Bool) :
    run_create_ata env transaction requirements has_create_ata ≠
      some (.error .FeePayerTransferringFunds) := by
  unfold run_create_ata
  repeat' split
  all_goals simp [create_ata_not_fptf]

/-- If one instruction's index scan reports no hit, every index resolves to
an account different from the fee payer. -/
theorem fee_payer_hit_false (message : Message) (fee_payer : Pubkey)
    (il : List Nat) (h : fee_payer_hit message fee_payer il = some false) :
    ∀ i ∈ il, ∃ a, keyAt message i = some a ∧ a ≠ fee_payer := by
  induction il with
  | nil => intro i hi; cases hi
  | cons j rest ih =>
    unfold fee_payer_hit at h
    intro i hi
    rcases List.mem_cons.mp hi with rfl | hmem
    · rcases hk : keyAt message i with _ | a
      · simp [hk] at h
      · simp only [hk] at h
        refine ⟨a, rfl, ?_⟩
        intro heq
        rw [if_pos heq] at h
        cases h
    · rcases hk : keyAt message j with _ | a
      · simp [hk] at h
      · simp only [hk] at h
        by_cases heq : a = fee_payer
        · rw [if_pos heq] at h
          cases h
        · rw [if_neg heq] at h
          exact ih h i hmem

/-- If the whole fee-payer-safety scan succeeds, every account index of
every instruction resolves to an account different from the fee payer. -/
theorem fee_payer_scan_ok (message : Message) (fee_payer : Pubkey)
    (l : List CompiledInstruction)
    (h : fee_payer_scan message fee_payer l = some (.ok ())) :
    ∀ instruction ∈ l, ∀ i ∈ instruction.accounts,
      ∃ a, keyAt message i = some a ∧ a ≠ fee_payer := by
  induction l with
  | nil => intro instruction hins; cases hins
  | cons ins rest ih =>
    unfold fee_payer_scan at h
    intro instruction hins
    rcases hh : fee_payer_hit message fee_payer ins.accounts with _ | b
    · rw [hh] at h
      cases h
    · rw [hh] at h
      cases b with
      | true => cases h
      | false =>
        rcases List.mem_cons.mp hins with rfl | hmem
        · exact fee_payer_hit_false message fee_payer instruction.accounts hh
        · exact ih h instruction hmem

/-- A transfer check rejecting with `FeePayerTransferringFunds` must have
resolved its authority (account position 3) to the fee payer. -/
theorem transfer_fptf_shape (env : Env) (instruction : CompiledInstruction)
    (message : Message) (requirements : PaymentRequirements) (fee_payer : Pubkey)
    (has_create_ata : Bool)
    (h : verify_transfer_instruction env instruction message requirements fee_payer
      has_create_ata = some (.error .FeePayerTransferringFunds)) :
    ∃ ai, instruction.accounts.get? 3 = some ai ∧
      keyAt message ai = some fee_payer := by
  unfold verify_transfer_instruction at h
  repeat' split at h
  all_goals try simp_all
  all_goals try (repeat' split at h
                 all_goals simp_all)

/-- A transfer instruction all of whose account indices resolve to
non-fee-payer accounts cannot be rejected with
`FeePayerTransferringFunds`. -/
theorem transfer_not_fptf (env : Env) (instruction : CompiledInstruction)
    (message : Message) (requirements : PaymentRequirements) (fee_payer : Pubkey)
    (has_create_ata : Bool)
    (hsafe : ∀ i ∈ instruction.accounts,
      ∃ a, keyAt message i = some a ∧ a ≠ fee_payer) :
    verify_transfer_instruction env instruction message requirements fee_payer
      has_create_ata ≠ some (.error .FeePayerTransferringFunds) := by
  intro hcontra
  obtain ⟨ai, h3, hka⟩ := transfer_fptf_shape env instruction message requirements
    fee_payer has_create_ata hcontra
  obtain ⟨a, hka2, hne⟩ := hsafe ai (List.get?_mem h3)
  rw [hka] at hka2
  cases hka2
  exact hne rfl

/-- After a successful fee-payer-safety check, the transfer step cannot
reject with `FeePayerTransferringFunds`. -/
theorem run_transfer_not_fptf (env : Env) (transaction : Transaction)
    (requirements : PaymentRequirements) (fee_payer : Pubkey)
    (has_create_ata : Bool)
    (hsafety : verify_fee_payer_safety transaction fee_payer = some (.ok ())) :
    run_transfer env transaction requirements fee_payer has_create_ata ≠
      some (.error .FeePayerTransferringFunds) := by
  intro hcontra
  unfold run_transfer at hcontra
  split at hcontra
  · cases hcontra
  · rename_i transfer_instruction hget
    refine transfer_not_fptf env transfer_instruction transaction.message
      requirements fee_payer has_create_ata ?_ hcontra
    exact fee_payer_scan_ok transaction.message fee_payer
      transaction.message.instructions hsafety transfer_instruction
      (List.get?_mem hget)

/-- The static step sequence never returns `FeePayerTransferringFunds`. -/
theorem static_not_fptf (env : Env) (config : Config) (request : VerifyRequest) :
    verify_payment_static env config request ≠
      some (.error .FeePayerTransferringFunds) := by
  intro hcontra
  simp only [verify_payment_static] at hcontra
  repeat' split at hcontra
  all_goals try simp_all [limit_not_fptf, price_not_fptf, count_not_fptf,
    safety_not_fptf, run_create_ata_not_fptf]
  all_goals
    rename_i hsafety hcreate htr
    exact run_transfer_not_fptf _ _ _ _ _ hsafety htr

/-- With no panic, if the fee payer sits at a resolvable account index the
per-instruction scan reports a hit. -/
theorem fee_payer_hit_true_of_hit (message : Message) (fee_payer : Pubkey)
    (il : List Nat) (hnp : ∀ i ∈ il, (keyAt message i).isSome)
    (hhit : ∃ i ∈ il, keyAt message i = some fee_payer) :
    fee_payer_hit message fee_payer il = some true := by
  induction il with
  | nil =>
    obtain ⟨i, hi, _⟩ := hhit
    cases hi
  | cons j rest ih =>
    obtain ⟨i, hi, hkey⟩ := hhit
    rcases hs : keyAt message j with _ | a
    · have hj := hnp j (List.mem_cons_self j rest)
      rw [hs] at hj
      cases hj
    · unfold fee_payer_hit
      simp only [hs]
      by_cases heq : a = fee_payer
      · simp [heq]
      · simp only [if_neg heq]
        apply ih
        · intro k hk
          exact hnp k (List.mem_cons_of_mem _ hk)
        · rcases List.mem_cons.mp hi with rfl | hmem
          · rw [hs] at hkey
            cases hkey
            exact absurd rfl heq
          · exact ⟨i, hmem, hkey⟩

/-- With no panic, the per-instruction scan is total. -/
theorem fee_payer_hit_total (message : Message) (fee_payer : Pubkey)
    (il : List Nat) (hnp : ∀ i ∈ il, (keyAt message i).isSome) :
    fee_payer_hit message fee_payer il = some true ∨
      fee_payer_hit message fee_payer il = some false := by
  induction il with
  | nil => right; rfl
  | cons j rest ih =>
    rcases hs : keyAt message j with _ | a
    · have hj := hnp j (List.mem_cons_self j rest)
      rw [hs] at hj
      cases hj
    · unfold fee_payer_hit
      simp only [hs]
      by_cases heq : a = fee_payer
      · left
        simp [heq]
      · simp only [if_neg heq]
        apply ih
        intro k hk
        exact hnp k (List.mem_cons_of_mem _ hk)

/-- With no panic, a fee-payer occurrence anywhere in the instruction list
makes the safety scan reject with `FeePayerInInstructionAccounts`. -/
theorem scan_hit_rejects (message : Message) (fee_payer : Pubkey)
    (l : List CompiledInstruction)
    (hnp : ∀ instruction ∈ l, ∀ i ∈ instruction.accounts,
      (keyAt message i).isSome)
    (hhit : ∃ instruction ∈ l, ∃ i ∈ instruction.accounts,
      keyAt message i = some fee_payer) :
    fee_payer_scan message fee_payer l =
      some (.error .FeePayerInInstructionAccounts) := by
  induction l with
  | nil =>
    obtain ⟨ins, hins, _⟩ := hhit
    cases hins
  | cons ins rest ih =>
    obtain ⟨insp, hinsp, i, hi, hkey⟩ := hhit
    unfold fee_payer_scan
    rcases List.mem_cons.mp hinsp with rfl | hmem
    · rw [fee_payer_hit_true_of_hit message fee_payer insp.accounts
        (hnp insp (List.mem_cons_self _ _)) ⟨i, hi, hkey⟩]
    · rcases fee_payer_hit_total message fee_payer ins.accounts
          (hnp ins (List.mem_cons_self _ _)) with htrue | hfalse
      · rw [htrue]
      · rw [hfalse]
        exact ih (fun ins2 h2 => hnp ins2 (List.mem_cons_of_mem _ h2))
          ⟨insp, hmem, i, hi, hkey⟩

/-- C1 (corrected, amended): a transaction whose TransferChecked authority
account equals the fee payer is caught by the cross-instruction
fee-payer-safety check, which scans every instruction's account list first
and rejects with `FeePayerInInstructionAccounts` (third conjunct, given
the indices resolve); consequently the verification pipeline can never
emit `FeePayerTransferringFunds` on any request, state or environment
(first conjunct); that tag is produced only by
`verify_transfer_instruction` called in isolation on a transfer whose
authority equals the fee payer (second conjunct). -/
theorem c1_fee_payer_authority :
    (∀ (env : Env) (config : Config) (st : DedupState) (request : VerifyRequest),
      (verify_payment env config st request).1 ≠
        some (.error .FeePayerTransferringFunds))
    ∧ (∀ (env : Env) (pidx i0 i1 i2 i3 : Nat) (more rest : List Nat)
        (message : Message) (requirements : PaymentRequirements)
        (fee_payer source destination : Pubkey) (has_create_ata : Bool),
      keyAt message pidx = some spl_token_program_id →
      rest.length ≥ 9 →
      parseU64 requirements.max_amount_required = some (fromLeBytes (rest.take 8)) →
      keyAt message i0 = some source →
      keyAt message i2 = some destination →
      keyAt message i3 = some fee_payer →
      verify_transfer_instruction env ⟨pidx, i0 :: i1 :: i2 :: i3 :: more, 12 :: rest⟩
          message requirements fee_payer has_create_ata =
        some (.error .FeePayerTransferringFunds))
    ∧ (∀ (tx : Transaction) (fee_payer : Pubkey),
      (∀ instruction ∈ tx.message.instructions, ∀ i ∈ instruction.accounts,
        (keyAt tx.message i).isSome) →
      (∃ instruction ∈ tx.message.instructions, ∃ i ∈ instruction.accounts,
        keyAt tx.message i = some fee_payer) →
      verify_fee_payer_safety tx fee_payer =
        some (.error .FeePayerInInstructionAccounts)) := by
  refine ⟨?_, ?_, ?_⟩
  · intro env config st request
    by_cases h : hash_transaction env request.payment_payload.payload.transaction ∈ st
    · rw [verify_payment_dup env config st request h]
      simp
    · rw [verify_payment_fresh env config st request h]
      show verify_payment_checks env config request ≠ _
      cases hts : request.payment_payload.timestamp with
      | none =>
        rw [checks_no_timestamp env config request hts]
        exact static_not_fptf env config request
      | some t =>
        by_cases hage : env.now - t > config.payment_expiry_seconds
        · rw [checks_expired env config request t hts hage]
          simp
        · rw [checks_recent env config request t hts (Nat.not_lt.mp hage)]
          exact static_not_fptf env config request
  · intro env pidx i0 i1 i2 i3 more rest message requirements fee_payer source
      destination has_create_ata hpid hlen hparse h0 h2 h3
    have hl : ¬ ((12 :: rest).length < 10) := by
      simp only [List.length_cons]
      omega
    have hacc : ¬ ((i0 :: i1 :: i2 :: i3 :: more).length < 4) := by
      simp only [List.length_cons]
      omega
    simp [verify_transfer_instruction, hpid, hl, hlen, hparse, hacc, h0, h2, h3]
    rw [if_neg (by omega), if_neg (by omega)]
  · intro tx fee_payer hnp hhit
    exact scan_hit_rejects tx.message fee_payer tx.message.instructions hnp hhit

/-- C1 witness: the safety check rejects the concrete fixture transaction
whose transfer authority is the fee payer with
`FeePayerInInstructionAccounts`. -/
theorem c1_witness :
    verify_fee_payer_safety txC1 100 =
      some (.error .FeePayerInInstructionAccounts) :=
  c1_fee_payer_authority.2.2 txC1 100 (by decide) (by decide)

/-- C1 counterexample: the pipeline rejects the fee-payer-as-authority
fixture with `FeePayerInInstructionAccounts`, which is not the tag
`FeePayerTransferringFunds` the claim states. -/
theorem c1_counterexample :
    verify_payment envFix cfgFix [] (mkReq "TXC1" "solana-devnet" none) =
      (some (.error .FeePayerInInstructionAccounts), ["TXC1#sha"])
    ∧ VerificationError.FeePayerInInstructionAccounts ≠
        VerificationError.FeePayerTransferringFunds :=
  ⟨by rfl, by decide⟩

end Facilitator
